import Mathlib

/-!
Verification of the iris-model container scripts emitted by the notebook
lab/01_CreateAlgorithmContainer/01_Creating a Classifier Container.ipynb:
the training script training.py and the serving script inference_handler.py.

The two Python files are shallowly embedded below.  Pure fragments become
Lean functions; the filesystem and the external libraries (scikit-learn,
pandas, joblib, the sagemaker_inference toolkit, the Python runtime) are
modelled by explicit parameters and event traces.  Strings keep the exact
text of the source, including its literal backslash-n sequences (the Python
sources write them as escaped backslashes, so the messages really contain
the two characters backslash and n, not a newline).
-/

namespace IrisMlops

/-! ## Python regular-expression patterns of training.py

training.py compiles two anchored patterns over hyperparameter value text:
is_float matches digits, a dot, digits; is_integer matches digits only.
Python re semantics: the dollar anchor also matches just before one
trailing newline, and int()/float() ignore that trailing newline.
-/

/-- Matches a nonempty all-digit character list (the regex fragment of one
or more digit characters). -/
def isDigitsL (s : List Char) : Bool := !s.isEmpty && s.all Char.isDigit

/-- Core of training.py's is_float pattern (digits, one dot, digits,
anchored at both ends).  The leading digit run is greedy; since a dot is
not a digit, maximal munch is exact for this pattern. -/
def floatCoreMatch (s : List Char) : Bool :=
  match s.span Char.isDigit with
  | (a, '.' :: b) => !a.isEmpty && isDigitsL b
  | _ => false

/-- Python re dollar-anchor semantics: a core match of the whole text, or of
the text minus one trailing newline. -/
def pyMatch (core : List Char → Bool) (s : List Char) : Bool :=
  core s || ((s.getLast? == some '\n') && core s.dropLast)

/-- training.py's is_float.match test on a hyperparameter value. -/
def is_float_match (s : String) : Bool := pyMatch floatCoreMatch s.data

/-- training.py's is_integer.match test on a hyperparameter value. -/
def is_integer_match (s : String) : Bool := pyMatch isDigitsL s.data

/-- Value of a big-endian list of digit characters. -/
def natOfDigitChars (l : List Char) : ℕ :=
  l.foldl (fun a c => 10 * a + (c.toNat - 48)) 0

/-- Python int()/float() strip the trailing newline a dollar-anchored match
may leave; on match results only one trailing newline can occur. -/
def pyStrip (l : List Char) : List Char :=
  if l.getLast? == some '\n' then l.dropLast else l

/-- Value of Python int(s) on text matched by the is_integer pattern. -/
def pyIntValue (s : String) : ℕ := natOfDigitChars (pyStrip s.data)

/-- Value of Python float(s) on text matched by the is_float pattern:
integer part plus fractional digits scaled by their count. -/
def pyFloatValue (s : String) : ℚ :=
  match (pyStrip s.data).span Char.isDigit with
  | (a, _ :: b) => (natOfDigitChars a : ℚ) + (natOfDigitChars b : ℚ) / 10 ^ b.length
  | (a, []) => (natOfDigitChars a : ℚ)

/-- A coerced hyperparameter value: float, int, or the original text. -/
inductive HPValue where
  | floatVal (q : ℚ)
  | intVal (n : ℕ)
  | strVal (s : String)
  deriving DecidableEq, Repr

/-- The coercion of one hyperparameter value in training.start: float if
is_float matches, else int if is_integer matches, else unchanged text. -/
def coerceValue (v : String) : HPValue :=
  if is_float_match v then HPValue.floatVal (pyFloatValue v)
  else if is_integer_match v then HPValue.intVal (pyIntValue v)
  else HPValue.strVal v

/-! ## Paths of training.py -/

/-- Whether pre begins s (over the character lists). -/
def strStartsWith (s pre : String) : Bool := pre.data.isPrefixOf s.data

/-- Whether post ends s (over the character lists). -/
def strEndsWith (s post : String) : Bool := post.data.reverse.isPrefixOf s.data.reverse

/-- Model of Python os.path.join for the uses in these scripts (second
component never absolute, first never empty). -/
def os_path_join (a b : String) : String :=
  if strStartsWith b "/" then b
  else if strEndsWith a "/" then a ++ b
  else a ++ "/" ++ b

/-- training.py's module-level prefix variable (the SageMaker exchange
directory); named prefixDir here. -/
def prefixDir : String := "/opt/ml"

/-- training.py: input_path. -/
def input_path : String := os_path_join prefixDir "input/data"

/-- training.py: output_path (failure reports go here). -/
def output_path : String := os_path_join prefixDir "output"

/-- training.py: model_path (the artifact directory). -/
def model_path : String := os_path_join prefixDir "model"

/-- training.py: param_path (the hyperparameter JSON file). -/
def param_path : String := os_path_join prefixDir "input/config/hyperparameters.json"

/-! ## The container entrypoint dispatcher

inference_handler.py's main block: one positional argument selects train
or serve; anything else raises the usage exception before either path.
-/

/-- The usage error message of inference_handler.py's main block. -/
def usageMessage : String :=
  "Invalid argument: you must inform 'train' for training mode or 'serve' predicting mode"

/-- What the main block of inference_handler.py does. -/
inductive DispatchAction where
  | runTraining
  | startModelServer (handler_service : String)
  | raiseUsage (msg : String)
  deriving DecidableEq, Repr

/-- The dispatcher of inference_handler.py's main block over sys.argv
(element 0 is the program name).  The length guard short-circuits before
argv[1] is read, so the default of getD is never compared. -/
def dispatcher (argv : List String) : DispatchAction :=
  if argv.length < 2 || !(["serve", "train"].contains (argv.getD 1 "")) then
    DispatchAction.raiseUsage usageMessage
  else if argv.getD 1 "" = "train" then
    DispatchAction.runTraining
  else
    DispatchAction.startModelServer "/opt/program/inference_handler.py:handle"

/-! ## CSV codec

Modelled from the spec: decoder.decode and encoder.encode of the external
sagemaker_inference toolkit (its code is not in the repository) parse and
render one comma-separated row of numeric values; cells are modelled as
unsigned decimal integers.
-/

/-- Character of one decimal digit. -/
def digitChar (d : ℕ) : Char := Char.ofNat (48 + d)

/-- Decimal rendering of a natural number as characters. -/
def renderNatL (n : ℕ) : List Char :=
  if n = 0 then ['0'] else ((Nat.digits 10 n).map digitChar).reverse

/-- Split a character list at commas (CSV fields of one row). -/
def splitCommaL : List Char → List (List Char)
  | [] => [[]]
  | c :: cs =>
    if c = ',' then [] :: splitCommaL cs
    else
      match splitCommaL cs with
      | [] => [[c]]
      | t :: ts => (c :: t) :: ts

/-- Join CSV fields of one row with commas. -/
def intercalateCommaL : List (List Char) → List Char
  | [] => []
  | [c] => c
  | c :: c2 :: rest => c ++ ',' :: intercalateCommaL (c2 :: rest)

/-- Parse one CSV cell as an unsigned decimal integer. -/
def parseCell (s : List Char) : Option ℕ :=
  if isDigitsL s then some (natOfDigitChars s) else none

/-- Map a fallible function over a list, failing when any element fails. -/
def optionMapAll {α β : Type} (f : α → Option β) : List α → Option (List β)
  | [] => some []
  | a :: as =>
    match f a, optionMapAll f as with
    | some b, some bs => some (b :: bs)
    | _, _ => none

/-- Modelled from the spec: decoder.decode for text/csv, one row of
numeric cells. -/
def parseRowL (s : List Char) : Option (List ℕ) :=
  optionMapAll parseCell (splitCommaL s)

/-- Modelled from the spec: encoder.encode for text/csv, one row of
numeric cells. -/
def renderRowL (r : List ℕ) : List Char :=
  intercalateCommaL (r.map renderNatL)

/-! ## The inference handler (InferenceHandler of inference_handler.py)

The fitted model is abstracted as a function from one feature row to one
label; model.predict maps it over the rows of its input matrix.
-/

/-- InferenceHandler.default_model_fn opens exactly this file under the
model directory it is given (the load itself is external joblib). -/
def default_model_fn_path (model_dir : String) : String :=
  os_path_join model_dir "iris_model.pkl"

/-- InferenceHandler.default_input_fn: reject any content type other than
text/csv naming it; otherwise decode the payload into a single sample
(reshape to one row). -/
def default_input_fn (input_data : List Char) (content_type : String) :
    Except String (List (List ℕ)) :=
  if content_type ≠ "text/csv" then
    Except.error ("Invalid content-type: " ++ content_type)
  else
    match parseRowL input_data with
    | some row => Except.ok [row]
    | none => Except.error "malformed csv payload"

/-- InferenceHandler.default_predict_fn: model.predict on the sample
matrix, one label per row, converted to a plain list. -/
def default_predict_fn (payload : List (List ℕ)) (model : List ℕ → ℕ) : List ℕ :=
  payload.map model

/-- InferenceHandler.default_output_fn: reject any accept type other than
text/csv naming it; otherwise encode the prediction list as CSV. -/
def default_output_fn (prediction : List ℕ) (accept : String) :
    Except String (List Char) :=
  if accept ≠ "text/csv" then
    Except.error ("Invalid accept: " ++ accept)
  else
    Except.ok (renderRowL prediction)

/-- Observable steps of one request through the toolkit transformer. -/
inductive ServeEvent where
  | decoded (rows : List (List ℕ))
  | predicted (labels : List ℕ)
  | responded (body : List Char)
  deriving DecidableEq, Repr

/-- The toolkit transformer pipeline over the three handler functions:
decode, predict, encode, with the trace of completed steps. -/
def transformerRun (model : List ℕ → ℕ) (input_data : List Char)
    (content_type accept : String) : Except String (List Char) × List ServeEvent :=
  match default_input_fn input_data content_type with
  | Except.error e => (Except.error e, [])
  | Except.ok payload =>
    let pred := default_predict_fn payload model
    match default_output_fn pred accept with
    | Except.error e => (Except.error e, [ServeEvent.decoded payload, ServeEvent.predicted pred])
    | Except.ok out =>
      (Except.ok out,
       [ServeEvent.decoded payload, ServeEvent.predicted pred, ServeEvent.responded out])

/-! ## The handler service and the module-level handle function

inference_handler.py keeps one module-level HandlerService; handle first
initializes it lazily (guarded by the toolkit's initialized flag), then
returns None for a None request, else delegates to the service.  initCount
counts initialize runs (each one loads the model). -/

/-- State of the module-level service: the toolkit initialized flag, plus
a count of initialize runs for the at-most-once property. -/
structure ServiceState where
  initialized : Bool
  initCount : ℕ
  deriving DecidableEq, Repr

/-- The service state at process start: model not yet loaded. -/
def initialState : ServiceState := { initialized := false, initCount := 0 }

/-- service.initialize: loads the model and marks the service ready. -/
def serviceInitialize (s : ServiceState) : ServiceState :=
  { initialized := true, initCount := s.initCount + 1 }

/-- The handle function of inference_handler.py: lazy-initialize, answer
None to a None request, else call the service transformer f.  The third
component records whether the transformer was invoked. -/
def handle {α β : Type} (f : α → β) (s : ServiceState) (data : Option α) :
    ServiceState × Option β × Bool :=
  let s1 := if s.initialized then s else serviceInitialize s
  match data with
  | none => (s1, none, false)
  | some d => (s1, some (f d), true)

/-- Iterate handle over a sequence of requests, threading the service
state. -/
def handleSeq {α β : Type} (f : α → β) (s : ServiceState) :
    List (Option α) → ServiceState
  | [] => s
  | d :: ds => handleSeq f (handle f s d).1 ds

/-! ## The training routine (training.start)

The filesystem and the external libraries are abstracted into a TrainEnv:
the parsed hyperparameter JSON object, the two directory listings, and
whether any of the external calls inside the try body (pandas reads,
set_params, fit, score, joblib.dump) raises.  The body reports the events
that completed and the exception it raised, if any.
-/

/-- Names bound at module level in training.py: its imports and its
top-level definitions.  Neither traceback nor sys is ever imported there
(sys is imported only in inference_handler.py, a different module
namespace), so name resolution inside training.py cannot see them. -/
def trainingGlobals : List String :=
  ["os", "pd", "re", "joblib", "json", "RandomForestClassifier",
   "prefix", "input_path", "output_path", "model_path", "param_path", "start"]

/-- One training invocation's inputs and external-call behavior. -/
structure TrainEnv where
  hyperparameters : List (String × String)
  trainDirListing : List String
  validationDirListing : List String
  fitError : Option String
  deriving Repr

/-- Observable effects of the try body of training.start. -/
inductive TrainEvent where
  | hyperparametersCoerced (hp : List (String × HPValue))
  | fitAttempted
  | scorePrinted
  | modelSaved (path : String)
  deriving DecidableEq, Repr

/-- Events the try body completed, and the exception it raised if it did
not run to the end. -/
structure BodyResult where
  events : List TrainEvent
  raised : Option String
  deriving Repr

/-- The ValueError message of the empty-directory check, exactly as
format builds it in training.py: the four placeholders receive
training_path, the word train, validation_path, the word validation, and
the separators are literal backslash-n character pairs. -/
def emptyDirMessage (training_path validation_path : String) : String :=
  "There are no files in " ++ training_path ++ " or train.\\n" ++
  "This usually indicates that the channel (" ++ validation_path ++
  " or validation) was incorrectly specified,\\n" ++
  "the data specification in S3 was incorrectly specified or the role specified\\n" ++
  "does not have permission to access the data."

/-- The try body of training.start: coerce hyperparameters, list both data
directories, raise the configuration ValueError when either listing is
empty, otherwise read the data, fit, score, and dump the model to
iris_model.pkl under model_path.  fitError abstracts an exception from any
of the external calls after the empty-directory check. -/
def tryBody (env : TrainEnv) : BodyResult :=
  let training_path := os_path_join input_path "train"
  let validation_path := os_path_join input_path "validation"
  let hp := env.hyperparameters.map (fun kv => (kv.1, coerceValue kv.2))
  let train_files := env.trainDirListing.map (os_path_join training_path)
  let validation_files := env.validationDirListing.map (os_path_join validation_path)
  if train_files.length = 0 ∨ validation_files.length = 0 then
    { events := [TrainEvent.hyperparametersCoerced hp],
      raised := some (emptyDirMessage training_path validation_path) }
  else
    match env.fitError with
    | some e =>
      { events := [TrainEvent.hyperparametersCoerced hp], raised := some e }
    | none =>
      { events := [TrainEvent.hyperparametersCoerced hp, TrainEvent.fitAttempted,
                   TrainEvent.scorePrinted,
                   TrainEvent.modelSaved (os_path_join model_path "iris_model.pkl")],
        raised := none }

/-- How the training process ends. -/
inductive ProcessOutcome where
  | exitOk
  | exitFailure (reportPath : String) (reportText : String)
  | uncaughtNameError (missingName : String)
  deriving DecidableEq, Repr

/-- The except clause of training.start as written: its first statement
evaluates traceback.format_exc(), and resolving the name traceback in the
module globals fails, raising NameError before the failure file is opened.
Were traceback bound, the report would be written and then printing to
sys.stderr would resolve sys, also unbound; only with both bound would the
clause reach sys.exit(255). -/
def exceptClause (e : String) : ProcessOutcome :=
  if trainingGlobals.contains "traceback" then
    if trainingGlobals.contains "sys" then
      ProcessOutcome.exitFailure (os_path_join output_path "failure")
        ("Exception during training: " ++ e ++ "\\n" ++ "<stack trace>")
    else ProcessOutcome.uncaughtNameError "sys"
  else ProcessOutcome.uncaughtNameError "traceback"

/-- training.start: run the try body; on an exception enter the except
clause, otherwise return normally (the process then exits with status 0). -/
def start (env : TrainEnv) : ProcessOutcome × List TrainEvent :=
  let body := tryBody env
  match body.raised with
  | none => (ProcessOutcome.exitOk, body.events)
  | some e => (exceptClause e, body.events)

/-! ## Lemmas: digit runs, span, and the two patterns -/

theorem takeWhile_dropWhile_append_cons {p : Char → Bool} (a : List Char) (c : Char)
    (b : List Char) (ha : ∀ x ∈ a, p x = true) (hc : p c = false) :
    (a ++ c :: b).takeWhile p = a ∧ (a ++ c :: b).dropWhile p = c :: b := by
  induction a with
  | nil => simp [List.takeWhile_cons, List.dropWhile_cons, hc]
  | cons x xs ih =>
    have hx : p x = true := ha x (by simp)
    have ihh := ih (fun y hy => ha y (by simp [hy]))
    simp [List.takeWhile_cons, List.dropWhile_cons, hx, ihh.1, ihh.2]

theorem span_append_cons {p : Char → Bool} (a : List Char) (c : Char) (b : List Char)
    (ha : ∀ x ∈ a, p x = true) (hc : p c = false) :
    (a ++ c :: b).span p = (a, c :: b) := by
  rw [List.span_eq_take_drop, (takeWhile_dropWhile_append_cons a c b ha hc).1,
    (takeWhile_dropWhile_append_cons a c b ha hc).2]

theorem span_of_all {p : Char → Bool} (l : List Char) (hl : ∀ x ∈ l, p x = true) :
    l.span p = (l, []) := by
  induction l with
  | nil => rfl
  | cons x xs ih =>
    have hx : p x = true := hl x (by simp)
    have ihh := ih (fun y hy => hl y (by simp [hy]))
    rw [List.span_eq_take_drop] at ihh ⊢
    simp only [List.takeWhile_cons, List.dropWhile_cons, hx, if_true, Prod.mk.injEq] at ihh ⊢
    exact ⟨by rw [ihh.1], ihh.2⟩

theorem getLast_beq_newline_false {v : List Char} (hne : v ≠ [])
    (hdig : ∀ c ∈ v, c.isDigit = true) : (v.getLast? == some '\n') = false := by
  cases hv : v.getLast? with
  | none => simp at hv; exact absurd hv hne
  | some c =>
    have hc : c ∈ v := List.mem_of_mem_getLast? hv
    have : c.isDigit = true := hdig c hc
    have hcn : c ≠ '\n' := by intro h; rw [h] at this; exact absurd this (by decide)
    simp [hcn]

theorem is_float_match_of_decomp {v : String} {a b : List Char}
    (hv : v.data = a ++ '.' :: b) (ha0 : a ≠ []) (hb0 : b ≠ [])
    (ha : ∀ c ∈ a, c.isDigit = true) (hb : ∀ c ∈ b, c.isDigit = true) :
    is_float_match v = true := by
  unfold is_float_match pyMatch floatCoreMatch
  rw [hv, span_append_cons a '.' b ha (by decide)]
  simp [isDigitsL, ha0, hb0, List.all_eq_true, List.isEmpty_iff]
  exact Or.inl hb

theorem getLast_of_decomp_digit {v : String} {a b : List Char}
    (hv : v.data = a ++ '.' :: b) (hb0 : b ≠ [])
    (hb : ∀ c ∈ b, c.isDigit = true) : (v.data.getLast? == some '\n') = false := by
  have h1 : (a ++ '.' :: b).getLast? = ('.' :: b).getLast? :=
    List.getLast?_append_of_ne_nil a (by simp)
  have h2 : ('.' :: b).getLast? = b.getLast? := List.getLast?_append_of_ne_nil ['.'] hb0
  rw [hv, h1, h2]
  exact getLast_beq_newline_false hb0 hb

/-- C2: for every hyperparameter value, the coercion of training.start
yields the floating-point value of the text when it is digits, a dot,
digits; else the integer value of the text when it is digits only; else
the original text unchanged (matching is the source pattern's, whose
anchors also accept one trailing newline). -/
theorem hyperparameter_coercion (v : String) :
    (∀ a b : List Char, v.data = a ++ '.' :: b → a ≠ [] → b ≠ [] →
        (∀ c ∈ a, c.isDigit = true) → (∀ c ∈ b, c.isDigit = true) →
        coerceValue v = HPValue.floatVal
          ((natOfDigitChars a : ℚ) + (natOfDigitChars b : ℚ) / 10 ^ b.length)) ∧
    (v.data ≠ [] → (∀ c ∈ v.data, c.isDigit = true) →
        coerceValue v = HPValue.intVal (natOfDigitChars v.data)) ∧
    (is_float_match v = false → is_integer_match v = false →
        coerceValue v = HPValue.strVal v) := by
  refine ⟨?_, ?_, ?_⟩
  · intro a b hv ha0 hb0 ha hb
    have hm := is_float_match_of_decomp hv ha0 hb0 ha hb
    have hstrip : pyStrip v.data = v.data := by
      simp [pyStrip, getLast_of_decomp_digit hv hb0 hb]
    have hval : pyFloatValue v =
        (natOfDigitChars a : ℚ) + (natOfDigitChars b : ℚ) / 10 ^ b.length := by
      unfold pyFloatValue
      rw [hstrip, hv, span_append_cons a '.' b ha (by decide)]
    simp [coerceValue, hm, hval]
  · intro h0 hdig
    have hlast := getLast_beq_newline_false h0 hdig
    have hfm : is_float_match v = false := by
      unfold is_float_match pyMatch floatCoreMatch
      rw [span_of_all v.data hdig, hlast]
      simp
    have him : is_integer_match v = true := by
      unfold is_integer_match pyMatch isDigitsL
      simp [List.all_eq_true, List.isEmpty_iff, h0]
      exact Or.inl hdig
    have hval : pyIntValue v = natOfDigitChars v.data := by
      simp [pyIntValue, pyStrip, hlast]
    simp [coerceValue, hfm, him, hval]
  · intro h1 h2
    simp [coerceValue, h1, h2]

/-- Witness for C2 at the concrete values 12.5, 120 and iris. -/
theorem hyperparameter_coercion_witness :
    coerceValue "12.5" = HPValue.floatVal
      ((natOfDigitChars ['1', '2'] : ℚ) +
        (natOfDigitChars ['5'] : ℚ) / 10 ^ (['5'] : List Char).length) ∧
    coerceValue "120" = HPValue.intVal (natOfDigitChars "120".data) ∧
    coerceValue "iris" = HPValue.strVal "iris" :=
  ⟨(hyperparameter_coercion "12.5").1 ['1', '2'] ['5'] rfl (by decide) (by decide)
      (by decide) (by decide),
   (hyperparameter_coercion "120").2.1 (by decide) (by decide),
   (hyperparameter_coercion "iris").2.2 (by decide) (by decide)⟩

/-- C4: the entrypoint dispatcher with single argument train invokes only
the training routine; with serve only the model-server start; with any
other argument or none it raises the usage error and neither path runs. -/
theorem dispatcher_modes (prog : String) :
    dispatcher [prog, "train"] = DispatchAction.runTraining ∧
    dispatcher [prog, "serve"] =
      DispatchAction.startModelServer "/opt/program/inference_handler.py:handle" ∧
    (∀ a : String, a ≠ "train" → a ≠ "serve" →
        dispatcher [prog, a] = DispatchAction.raiseUsage usageMessage) ∧
    dispatcher [prog] = DispatchAction.raiseUsage usageMessage ∧
    dispatcher [] = DispatchAction.raiseUsage usageMessage := by
  refine ⟨by simp [dispatcher], by simp [dispatcher], ?_, by simp [dispatcher], by simp [dispatcher]⟩
  intro a h1 h2
  simp [dispatcher, h1, h2]

/-- Witness for C4 at a concrete unknown mode argument. -/
theorem dispatcher_modes_witness :
    dispatcher ["program", "deploy"] = DispatchAction.raiseUsage usageMessage :=
  (dispatcher_modes "program").2.2.1 "deploy" (by decide) (by decide)

/-- C1 (refuted, code bug): whenever the try body of training.start raises,
the except clause does not produce the documented failure report and exit
status 255; it raises an uncaught NameError for the unimported name
traceback, so no report reaches output/failure. -/
theorem training_exception_uncaught (env : TrainEnv) (e : String)
    (h : (tryBody env).raised = some e) :
    (start env).1 = ProcessOutcome.uncaughtNameError "traceback" ∧
    ∀ p t : String, (start env).1 ≠ ProcessOutcome.exitFailure p t := by
  have hs : (start env).1 = exceptClause e := by
    simp [start, h]
  have hc : exceptClause e = ProcessOutcome.uncaughtNameError "traceback" := by
    simp [exceptClause, trainingGlobals]
  refine ⟨hs.trans hc, ?_⟩
  intro p t hraw
  rw [hs, hc] at hraw
  exact absurd hraw (by simp)

/-- Witness for C1: a run whose try body raises (empty data directories). -/
theorem training_exception_uncaught_witness :
    (start { hyperparameters := [], trainDirListing := [],
             validationDirListing := [], fitError := none }).1 =
      ProcessOutcome.uncaughtNameError "traceback" :=
  (training_exception_uncaught
    { hyperparameters := [], trainDirListing := [],
      validationDirListing := [], fitError := none }
    (emptyDirMessage (os_path_join input_path "train")
      (os_path_join input_path "validation")) rfl).1

set_option maxRecDepth 10000 in
/-- C3 (partly refuted, code bug): with an empty train or validation
directory the try body raises the configuration ValueError before any
fitting or model save, and its message contains both directory paths; but
the claimed failure report and exit status 255 do not happen, because the
except clause raises an uncaught NameError for traceback. -/
theorem empty_dir_config_error (env : TrainEnv)
    (h : env.trainDirListing = [] ∨ env.validationDirListing = []) :
    (tryBody env).raised = some (emptyDirMessage (os_path_join input_path "train")
      (os_path_join input_path "validation")) ∧
    (∃ pre mid post : List Char,
        (emptyDirMessage (os_path_join input_path "train")
            (os_path_join input_path "validation")).data =
          pre ++ (os_path_join input_path "train").data ++ mid ++
            (os_path_join input_path "validation").data ++ post) ∧
    TrainEvent.fitAttempted ∉ (tryBody env).events ∧
    (∀ p : String, TrainEvent.modelSaved p ∉ (tryBody env).events) ∧
    (start env).1 = ProcessOutcome.uncaughtNameError "traceback" := by
  have hcond : env.trainDirListing.length = 0 ∨ env.validationDirListing.length = 0 := by
    rcases h with h | h <;> [left; right] <;> simp [h]
  have hraised : (tryBody env).raised = some (emptyDirMessage
      (os_path_join input_path "train") (os_path_join input_path "validation")) := by
    simp only [tryBody, List.length_map]
    rw [if_pos hcond]
  have hevents : (tryBody env).events =
      [TrainEvent.hyperparametersCoerced
        (env.hyperparameters.map (fun kv => (kv.1, coerceValue kv.2)))] := by
    simp only [tryBody, List.length_map]
    rw [if_pos hcond]
  refine ⟨hraised,
    ⟨"There are no files in ".data,
     (" or train.\\n" ++ "This usually indicates that the channel (").data,
     (" or validation) was incorrectly specified,\\n" ++
       "the data specification in S3 was incorrectly specified or the role specified\\n" ++
       "does not have permission to access the data.").data,
     by decide⟩,
    ?_, ?_, ?_⟩
  · rw [hevents]; simp
  · intro p; rw [hevents]; simp
  · exact (training_exception_uncaught env _ hraised).1

/-- Witness for C3: the empty train directory. -/
theorem empty_dir_config_error_witness :
    (tryBody { hyperparameters := [], trainDirListing := [],
               validationDirListing := ["iris_validation.csv"], fitError := none }).raised =
      some (emptyDirMessage (os_path_join input_path "train")
        (os_path_join input_path "validation")) :=
  (empty_dir_config_error _ (Or.inl rfl)).1

/-- C9: training serializes the model to exactly iris_model.pkl under the
fixed model directory, and the serving loader opens exactly the same path,
so a successful run's artifact is the file serving reads. -/
theorem artifact_filename_agreement (env : TrainEnv)
    (h : (tryBody env).raised = none) :
    default_model_fn_path model_path = os_path_join model_path "iris_model.pkl" ∧
    default_model_fn_path model_path = "/opt/ml/model/iris_model.pkl" ∧
    TrainEvent.modelSaved (default_model_fn_path model_path) ∈ (tryBody env).events := by
  refine ⟨rfl, by decide, ?_⟩
  by_cases hc : env.trainDirListing.length = 0 ∨ env.validationDirListing.length = 0
  · exfalso
    have : (tryBody env).raised ≠ none := by
      simp only [tryBody, List.length_map]
      rw [if_pos hc]
      simp
    exact this h
  · cases hfe : env.fitError with
    | some e =>
      exfalso
      have : (tryBody env).raised ≠ none := by
        simp only [tryBody, List.length_map]
        rw [if_neg hc, hfe]
        simp
      exact this h
    | none =>
      have : (tryBody env).events =
          [TrainEvent.hyperparametersCoerced
             (env.hyperparameters.map (fun kv => (kv.1, coerceValue kv.2))),
           TrainEvent.fitAttempted, TrainEvent.scorePrinted,
           TrainEvent.modelSaved (os_path_join model_path "iris_model.pkl")] := by
        simp only [tryBody, List.length_map]
        rw [if_neg hc, hfe]
      rw [this]
      simp [default_model_fn_path]

/-- Witness for C9: a successful run with one file in each directory. -/
theorem artifact_filename_agreement_witness :
    TrainEvent.modelSaved (default_model_fn_path model_path) ∈
      (tryBody { hyperparameters := [("max_depth", "11")],
                 trainDirListing := ["iris_train.csv"],
                 validationDirListing := ["iris_validation.csv"],
                 fitError := none }).events :=
  (artifact_filename_agreement
    { hyperparameters := [("max_depth", "11")],
      trainDirListing := ["iris_train.csv"],
      validationDirListing := ["iris_validation.csv"],
      fitError := none } rfl).2.2

/-- Once the service is initialized, handle leaves its state unchanged. -/
theorem handle_fixed_of_initialized {α β : Type} (f : α → β) (s : ServiceState)
    (hs : s.initialized = true) (d : Option α) : (handle f s d).1 = s := by
  cases d <;> simp [handle, hs]

/-- Iterating handle from an initialized state never changes it. -/
theorem handleSeq_fixed {α β : Type} (f : α → β) (ds : List (Option α))
    (s : ServiceState) (hs : s.initialized = true) : handleSeq f s ds = s := by
  induction ds generalizing s with
  | nil => rfl
  | cons d ds ih =>
    unfold handleSeq
    rw [handle_fixed_of_initialized f s hs d]
    exact ih s hs

/-- C8: the handler service starts uninitialized, the first invocation of
handle initializes it (one model load), and across any sequence of
invocations initialization runs exactly once, every later invocation
seeing the initialized state unchanged. -/
theorem handler_lazy_init_once {α β : Type} (f : α → β) (d : Option α)
    (ds : List (Option α)) :
    initialState.initialized = false ∧
    (handle f initialState d).1 = { initialized := true, initCount := 1 } ∧
    handleSeq f initialState (d :: ds) = { initialized := true, initCount := 1 } ∧
    (∀ s : ServiceState, s.initialized = true →
        ∀ d2 : Option α, (handle f s d2).1 = s) := by
  have hfirst : (handle f initialState d).1 =
      { initialized := true, initCount := 1 } := by
    cases d <;> rfl
  refine ⟨rfl, hfirst, ?_, fun s hs d2 => handle_fixed_of_initialized f s hs d2⟩
  show handleSeq f (handle f initialState d).1 ds = _
  rw [hfirst]
  exact handleSeq_fixed f ds _ rfl

/-- Witness for C8: three invocations, one initialization. -/
theorem handler_lazy_init_once_witness :
    handleSeq (fun n : ℕ => n + 1) initialState [some 5, none, some 3] =
      { initialized := true, initCount := 1 } :=
  (handler_lazy_init_once (fun n : ℕ => n + 1) (some 5) [none, some 3]).2.2.1

/-- C10: a None request payload returns None without invoking the request
transformer, while the lazy initialization guard still runs first, so an
uninitialized service loads the model even on a None payload. -/
theorem handle_none_payload {α β : Type} (f : α → β) (s : ServiceState) :
    (handle f s none).2.1 = none ∧
    (handle f s none).2.2 = false ∧
    (handle f s none).1.initialized = true ∧
    (s.initialized = false → (handle f s none).1.initCount = s.initCount + 1) ∧
    (s.initialized = true → (handle f s none).1 = s) := by
  cases hs : s.initialized <;> simp [handle, serviceInitialize, hs]

/-- Witness for C10: a None payload on the fresh service triggers one
model load and returns None. -/
theorem handle_none_payload_witness :
    (handle (fun n : ℕ => n + 1) initialState none).2.1 = none ∧
    (handle (fun n : ℕ => n + 1) initialState none).1.initCount =
      initialState.initCount + 1 :=
  ⟨(handle_none_payload (fun n : ℕ => n + 1) initialState).1,
   (handle_none_payload (fun n : ℕ => n + 1) initialState).2.2.2.1 rfl⟩

/-! ## Lemmas: the CSV codec round-trips -/

theorem isDigit_digitChar {d : ℕ} (hd : d < 10) : (digitChar d).isDigit = true := by
  interval_cases d <;> decide

theorem toNat_digitChar {d : ℕ} (hd : d < 10) : (digitChar d).toNat = 48 + d := by
  interval_cases d <;> decide

theorem renderNatL_ne_nil (n : ℕ) : renderNatL n ≠ [] := by
  unfold renderNatL
  by_cases h : n = 0
  · simp [h]
  · simp [h, Nat.digits_ne_nil_iff_ne_zero.mpr h]

theorem renderNatL_all_digits (n : ℕ) : ∀ c ∈ renderNatL n, c.isDigit = true := by
  intro c hc
  unfold renderNatL at hc
  by_cases h : n = 0
  · simp [h] at hc
    rw [hc]
    decide
  · simp only [h, if_false, List.mem_reverse, List.mem_map] at hc
    obtain ⟨d, hd, rfl⟩ := hc
    exact isDigit_digitChar (Nat.digits_lt_base (by norm_num) hd)

theorem renderNatL_no_comma (n : ℕ) : ',' ∉ renderNatL n := by
  intro hc
  have := renderNatL_all_digits n ',' hc
  exact absurd this (by decide)

theorem foldr_digits_eq_ofDigits (ds : List ℕ) (hds : ∀ d ∈ ds, d < 10) :
    ds.foldr (fun d a => 10 * a + ((digitChar d).toNat - 48)) 0 = Nat.ofDigits 10 ds := by
  induction ds with
  | nil => rfl
  | cons d ds ih =>
    have hd : d < 10 := hds d (by simp)
    have ihh := ih (fun x hx => hds x (by simp [hx]))
    rw [List.foldr_cons, ihh, Nat.ofDigits_cons, toNat_digitChar hd]
    omega

theorem natOfDigitChars_renderNatL (n : ℕ) : natOfDigitChars (renderNatL n) = n := by
  by_cases h : n = 0
  · simp [h, renderNatL, natOfDigitChars]
  · have hds : ∀ d ∈ Nat.digits 10 n, d < 10 :=
      fun d hd => Nat.digits_lt_base (by norm_num) hd
    unfold renderNatL natOfDigitChars
    rw [if_neg h, List.foldl_reverse, List.foldr_map]
    exact (foldr_digits_eq_ofDigits _ hds).trans (Nat.ofDigits_digits 10 n)

theorem splitCommaL_no_comma (l : List Char) (hl : ',' ∉ l) : splitCommaL l = [l] := by
  induction l with
  | nil => rfl
  | cons c cs ih =>
    have hc : c ≠ ',' := fun h => hl (by simp [h])
    have ihh : splitCommaL cs = [cs] := ih (fun h => hl (by simp [h]))
    simp [splitCommaL, hc, ihh]

theorem splitCommaL_append (cell : List Char) (rest : List Char) (hc : ',' ∉ cell) :
    splitCommaL (cell ++ ',' :: rest) = cell :: splitCommaL rest := by
  induction cell with
  | nil => simp [splitCommaL]
  | cons c cs ih =>
    have hcc : c ≠ ',' := fun h => hc (by simp [h])
    have ihh := ih (fun h => hc (by simp [h]))
    simp [splitCommaL, hcc, ihh]

theorem splitCommaL_intercalate (cells : List (List Char)) (h0 : cells ≠ [])
    (hc : ∀ cell ∈ cells, ',' ∉ cell) :
    splitCommaL (intercalateCommaL cells) = cells := by
  induction cells with
  | nil => exact absurd rfl h0
  | cons c rest ih =>
    cases rest with
    | nil => exact splitCommaL_no_comma c (hc c (by simp))
    | cons c2 rest2 =>
      have h1 : ',' ∉ c := hc c (by simp)
      have h2 : ∀ cell ∈ c2 :: rest2, ',' ∉ cell :=
        fun cell hcell => hc cell (by simp [hcell])
      rw [show intercalateCommaL (c :: c2 :: rest2) =
            c ++ ',' :: intercalateCommaL (c2 :: rest2) from rfl,
        splitCommaL_append c _ h1, ih (by simp) h2]

theorem parseCell_renderNatL (n : ℕ) : parseCell (renderNatL n) = some n := by
  have hdig : isDigitsL (renderNatL n) = true := by
    unfold isDigitsL
    rw [Bool.and_eq_true]
    refine ⟨?_, List.all_eq_true.mpr (renderNatL_all_digits n)⟩
    simp [List.isEmpty_iff, renderNatL_ne_nil n]
  simp [parseCell, hdig, natOfDigitChars_renderNatL n]

theorem optionMapAll_parseCell (r : List ℕ) :
    optionMapAll parseCell (r.map renderNatL) = some r := by
  induction r with
  | nil => rfl
  | cons n ns ih => simp [optionMapAll, parseCell_renderNatL n, ih]

theorem parseRowL_renderRowL (r : List ℕ) (hr : r ≠ []) :
    parseRowL (renderRowL r) = some r := by
  unfold parseRowL renderRowL
  rw [splitCommaL_intercalate (r.map renderNatL) (by simp [hr])
    (by intro cell hcell
        obtain ⟨n, hn, rfl⟩ := List.mem_map.mp hcell
        exact renderNatL_no_comma n)]
  exact optionMapAll_parseCell r

/-- C5: a request whose declared content type is not text/csv is rejected
by default_input_fn with an error naming the invalid type; the pipeline
stops there, and the model prediction function is never invoked. -/
theorem invalid_content_type_rejected (model : List ℕ → ℕ) (input_data : List Char)
    (ct accept : String) (h : ct ≠ "text/csv") :
    default_input_fn input_data ct =
      Except.error ("Invalid content-type: " ++ ct) ∧
    transformerRun model input_data ct accept =
      (Except.error ("Invalid content-type: " ++ ct), []) ∧
    (∀ labels : List ℕ,
        ServeEvent.predicted labels ∉ (transformerRun model input_data ct accept).2) := by
  have hin : default_input_fn input_data ct =
      Except.error ("Invalid content-type: " ++ ct) := by
    simp [default_input_fn, h]
  refine ⟨hin, ?_, ?_⟩
  · simp [transformerRun, hin]
  · intro labels
    simp [transformerRun, hin]

/-- Witness for C5 at the content type application/json. -/
theorem invalid_content_type_rejected_witness :
    default_input_fn "5,3,1,0".data "application/json" =
      Except.error ("Invalid content-type: " ++ "application/json") :=
  (invalid_content_type_rejected (fun _ => 0) "5,3,1,0".data
    "application/json" "text/csv" (by decide)).1

/-- C6: a request whose declared accept type is not text/csv is rejected
by default_output_fn with an error naming the invalid type; the trace
shows the prediction was already computed and no response was produced. -/
theorem invalid_accept_rejected (model : List ℕ → ℕ) (input_data : List Char)
    (row : List ℕ) (accept : String) (hrow : parseRowL input_data = some row)
    (h : accept ≠ "text/csv") :
    (∀ pred : List ℕ, default_output_fn pred accept =
        Except.error ("Invalid accept: " ++ accept)) ∧
    transformerRun model input_data "text/csv" accept =
      (Except.error ("Invalid accept: " ++ accept),
       [ServeEvent.decoded [row], ServeEvent.predicted [model row]]) ∧
    (∀ body : List Char,
        ServeEvent.responded body ∉ (transformerRun model input_data "text/csv" accept).2) := by
  have hout : ∀ pred : List ℕ, default_output_fn pred accept =
      Except.error ("Invalid accept: " ++ accept) := by
    intro pred
    simp [default_output_fn, h]
  have hin : default_input_fn input_data "text/csv" = Except.ok [row] := by
    simp [default_input_fn, hrow]
  refine ⟨hout, ?_, ?_⟩
  · simp [transformerRun, hin, default_predict_fn, hout]
  · intro body
    simp [transformerRun, hin, default_predict_fn, hout]

/-- Witness for C6 at the accept type application/json. -/
theorem invalid_accept_rejected_witness :
    transformerRun (fun _ => 2) "5,3,1,0".data "text/csv" "application/json" =
      (Except.error ("Invalid accept: " ++ "application/json"),
       [ServeEvent.decoded [[5, 3, 1, 0]],
        ServeEvent.predicted [(fun _ => 2) [5, 3, 1, 0]]]) :=
  (invalid_accept_rejected (fun _ => 2) "5,3,1,0".data [5, 3, 1, 0]
    "application/json" (by decide) (by decide)).2.1

/-- C7: a feature row encoded as CSV, sent with content type text/csv and
accept text/csv, flows through decode (one sample), predict, and encode to
a single-element CSV prediction whose decoding recovers the label the
model produced for that row. -/
theorem csv_round_trip (model : List ℕ → ℕ) (r : List ℕ) (hr : r ≠ []) :
    (transformerRun model (renderRowL r) "text/csv" "text/csv").1 =
      Except.ok (renderRowL [model r]) ∧
    default_input_fn (renderRowL r) "text/csv" = Except.ok [r] ∧
    parseRowL (renderRowL [model r]) = some [model r] ∧
    [model r].length = 1 := by
  have hin : default_input_fn (renderRowL r) "text/csv" = Except.ok [r] := by
    simp [default_input_fn, parseRowL_renderRowL r hr]
  refine ⟨?_, hin, parseRowL_renderRowL [model r] (by simp), rfl⟩
  simp [transformerRun, hin, default_predict_fn, default_output_fn]

/-- Witness for C7 at a concrete row and model. -/
theorem csv_round_trip_witness :
    (transformerRun (fun _ => 2) (renderRowL [5, 3, 1, 0]) "text/csv" "text/csv").1 =
      Except.ok (renderRowL [(fun _ => 2) [5, 3, 1, 0]]) :=
  (csv_round_trip (fun _ => 2) [5, 3, 1, 0] (by decide)).1

end IrisMlops
